import Mathlib

/-!
Verification development for the rqbit desktop control surface
(`src/desktop/src-tauri/src/main.rs`): a shallow embedding of the session
lifecycle manager (`State::configure`, `State::current_config`, `State::api`),
the Tauri command handlers, and the log-filter reload loop, together with
theorems about the claims of the specification.

External collaborators (the librqbit engine, the tracing-subscriber filter
parser, the HTTP API server) are abstracted as parameters: `configure` takes
the outcome of `Session::new_with_opts` as a function argument, the command
handlers take an `Engine` record of the `Api` methods they delegate to, and
the reload loop takes the directive parser as a function argument.

Await points and lock acquisitions inside `configure` are recorded as an
explicit event trace so that the ordering claims (old record removed before
the stop wait, no suspension under the exclusive lock, ...) can be stated.
-/

/-! ## Configuration (fields as read by `main.rs`) -/

/-- `config.dht.*` as read in `State::configure`. -/
structure DhtSection where
  disable : Bool
  disable_persistence : Bool
  persistence_filename : String
deriving DecidableEq, Repr

/-- `config.persistence.*` as read in `State::configure`. -/
structure PersistenceSection where
  disable : Bool
  filename : String
deriving DecidableEq, Repr

/-- `config.peer_opts.*` as read in `State::configure` (timeouts in ms). -/
structure PeerOptsSection where
  connect_timeout : Nat
  read_write_timeout : Nat
deriving DecidableEq, Repr

/-- `config.tcp_listen.*` as read in `State::configure`. -/
structure TcpListenSection where
  disable : Bool
  min_port : Nat
  max_port : Nat
deriving DecidableEq, Repr

/-- `config.upnp.*` as read in `State::configure`. -/
structure UpnpSection where
  disable : Bool
deriving DecidableEq, Repr

/-- `config.http_api.*` as read in `State::configure`. -/
structure HttpApiSection where
  disable : Bool
  listen_addr : String
  read_only : Bool
deriving DecidableEq, Repr

/-- `RqbitDesktopConfig`, with exactly the fields `main.rs` reads.
Rust `Clone` on this plain data type is value copy, so cloning is the
identity in the embedding. -/
structure RqbitDesktopConfig where
  default_download_location : String
  dht : DhtSection
  persistence : PersistenceSection
  peer_opts : PeerOptsSection
  tcp_listen : TcpListenSection
  upnp : UpnpSection
  http_api : HttpApiSection
deriving DecidableEq, Repr

/-! ## Sessions, API handles, errors -/

/-- An opaque live `librqbit::Session` handle, identified by a tag so that
distinct sessions are distinguishable. -/
structure Session where
  sid : Nat
deriving DecidableEq, Repr

/-- An `librqbit::Api` handle; `Api::new(session.clone(), None)` wraps the
session it was built from. Cloning it is value copy. -/
structure Api where
  session : Session
deriving DecidableEq, Repr

/-- `Api::new(session.clone(), None)` from line 89 of `main.rs`. -/
def Api.new (s : Session) : Api := ⟨s⟩

/-- `ApiError`: a status code plus a human-readable message/cause chain. -/
structure ApiError where
  status : Nat
  message : String
deriving DecidableEq, Repr

/-- `ERR_NOT_CONFIGURED = ApiError::new_from_text(StatusCode::FAILED_DEPENDENCY,
"not configured")` — status 424. -/
def ERR_NOT_CONFIGURED : ApiError :=
  { status := 424, message := "not configured" }

/-- The error produced by the `?` on
`Session::new_with_opts(...).await.context("couldn't set up librqbit session")`:
an internal-error `ApiError` (status 500) wrapping the underlying cause. -/
def configure_error (cause : String) : ApiError :=
  { status := 500, message := "couldn't set up librqbit session: " ++ cause }

/-- `ApiError::new_from_anyhow(StatusCode::BAD_REQUEST, e)` applied to the
base64 decode error with context `"invalid base64"` — status 400, carrying
the decode cause. -/
def invalid_base64_error (cause : String) : ApiError :=
  { status := 400, message := "invalid base64: " ++ cause }

/-! ## The session slot -/

/-- `StateShared`: the Active Session Record stored in the slot. -/
structure StateShared where
  config : RqbitDesktopConfig
  api : Api
  session : Session
deriving DecidableEq, Repr

/-- The session slot: `Arc<RwLock<Option<StateShared>>>`, here the value it
holds at one instant. -/
abbrev Slot := Option StateShared

/-- `State::api` (lines 40–46): under a read lock, clone the `Api` handle of
the active record, or fail with `ERR_NOT_CONFIGURED`. -/
def State.api (slot : Slot) : Except ApiError Api :=
  match slot with
  | some s => .ok s.api
  | none => .error ERR_NOT_CONFIGURED

/-- `State::current_config` (lines 48–50): under a read lock, clone the
configuration of the active record, if any. -/
def State.current_config (slot : Slot) : Option RqbitDesktopConfig :=
  slot.map (fun s => s.config)

/-! ## SessionOptions construction (lines 61–85) -/

/-- The fields of `librqbit::SessionOptions` that `State::configure` sets. -/
structure SessionOptions where
  disable_dht : Bool
  disable_dht_persistence : Bool
  dht_config_filename : Option String
  persistence : Bool
  persistence_filename : Option String
  peer_connect_timeout : Option Nat
  peer_read_write_timeout : Option Nat
  listen_port_range : Option (Nat × Nat)
  enable_upnp_port_forwarding : Bool
deriving DecidableEq, Repr

/-- The `SessionOptions { ... }` literal built inside `State::configure`
(lines 63–84), field by field. -/
def mkSessionOptions (config : RqbitDesktopConfig) : SessionOptions :=
  { disable_dht := config.dht.disable
    disable_dht_persistence := config.dht.disable_persistence
    dht_config_filename := some config.dht.persistence_filename
    persistence := !config.persistence.disable
    persistence_filename := some config.persistence.filename
    peer_connect_timeout := some config.peer_opts.connect_timeout
    peer_read_write_timeout := some config.peer_opts.read_write_timeout
    listen_port_range :=
      if !config.tcp_listen.disable then
        some (config.tcp_listen.min_port, config.tcp_listen.max_port)
      else
        none
    enable_upnp_port_forwarding := !config.upnp.disable }

/-! ## The configure trace -/

/-- The observable steps of `State::configure`, in program order:
lock acquisitions (each a pointer/handle swap on the slot) and await points
(suspensions), plus the fire-and-forget spawn of the HTTP API task. -/
inductive Event where
  /-- `self.shared.write().take()` (line 53): exclusive lock held for the
  duration of the take; the guard is a temporary dropped at the semicolon. -/
  | lockTake (taken : Slot)
  /-- `existing.session.stop().await` (line 56): suspension, no lock held. -/
  | awaitStop (s : Session)
  /-- `Session::new_with_opts(...).await` (lines 61–86): suspension, no lock
  held. -/
  | awaitSessionNew (location : String) (opts : SessionOptions)
  /-- `session.spawn("http api", ..., http_api_task)` (line 98): spawns the
  control-plane server task in the background; not awaited. -/
  | spawnHttpApi (listen_addr : String) (read_only : Bool)
  /-- `*self.shared.write() = Some(...)` (lines 101–105): exclusive lock held
  for the install; the guard is a temporary dropped at the semicolon. -/
  | lockInstall (v : StateShared)
deriving DecidableEq, Repr

/-- Whether the slot's exclusive (write) lock is held during the event. -/
def Event.holdsWriteLock : Event → Bool
  | .lockTake _ => true
  | .lockInstall _ => true
  | _ => false

/-- Whether the event is an await point (task suspension / I/O wait). -/
def Event.isSuspension : Event → Bool
  | .awaitStop _ => true
  | .awaitSessionNew _ _ => true
  | _ => false

/-- Whether the event is a pure pointer/handle swap on the slot. -/
def Event.isSlotSwap : Event → Bool
  | .lockTake _ => true
  | .lockInstall _ => true
  | _ => false

/-- The slot content after one event: the take empties the slot, the install
fills it, every other step leaves it unchanged. -/
def applyEvent (slot : Slot) : Event → Slot
  | .lockTake _ => none
  | .lockInstall v => some v
  | _ => slot

/-- The slot content a concurrent reader observes after a prefix of the
trace has executed. -/
def slotAfter (slot : Slot) : List Event → Slot
  | [] => slot
  | e :: rest => slotAfter (applyEvent slot e) rest

deriving instance DecidableEq for Except

/-- Result of one `State::configure` call: the event trace it executed, the
slot content when it returned, and its return value. -/
structure ConfigureResult where
  trace : List Event
  post : Slot
  ret : Except ApiError Unit
deriving DecidableEq, Repr

/-- `State::configure` (lines 52–108), as a function of the awaited outcome
of the external `Session::new_with_opts` (`sessionNew`) and of the spawned
HTTP API task (`httpTaskResult`, which the code never inspects):

1. take-and-clear the slot under the write lock (line 53);
2. if a record was taken, await its session's stop, lock released (55–57);
3. clone the config (59) and await `Session::new_with_opts` (61–86); a
   construction failure returns the contextualized error via `?` (87);
4. build the `Api` (89); if the HTTP API is enabled, spawn its task in the
   background (91–99);
5. install the new record under the write lock (101–105) and return `Ok`. -/
def State.configure (sessionNew : String → SessionOptions → Except String Session)
    (httpTaskResult : Except String Unit) (pre : Slot)
    (config : RqbitDesktopConfig) : ConfigureResult :=
  let existing := pre
  let takeEvs := [Event.lockTake pre]
  let stopEvs :=
    match existing with
    | some ex => [Event.awaitStop ex.session]
    | none => []
  let config_clone := config
  let opts := mkSessionOptions config
  let newEvs := [Event.awaitSessionNew config.default_download_location opts]
  match sessionNew config.default_download_location opts with
  | .error cause =>
      { trace := takeEvs ++ stopEvs ++ newEvs
        post := none
        ret := .error (configure_error cause) }
  | .ok session =>
      let api := Api.new session
      let httpEvs :=
        if !config.http_api.disable then
          [Event.spawnHttpApi config.http_api.listen_addr config.http_api.read_only]
        else
          []
      let shared : StateShared :=
        { config := config_clone, api := api, session := session }
      { trace := takeEvs ++ stopEvs ++ newEvs ++ httpEvs ++ [Event.lockInstall shared]
        post := some shared
        ret := .ok () }

/-! ## base64 decoding (`base64::engine::general_purpose::STANDARD`) -/

/-- The value of a character in the standard base64 alphabet
(`A`–`Z`, `a`–`z`, `0`–`9`, `+`, `/`), or `none` for any other character. -/
def b64Val (c : Char) : Option Nat :=
  if 'A' ≤ c ∧ c ≤ 'Z' then some (c.toNat - 65)
  else if 'a' ≤ c ∧ c ≤ 'z' then some (c.toNat - 97 + 26)
  else if '0' ≤ c ∧ c ≤ '9' then some (c.toNat - 48 + 52)
  else if c = '+' then some 62
  else if c = '/' then some 63
  else none

/-- Decode base64 input four symbols at a time, as the `STANDARD` engine
does: canonical padding is required (`=` or `==` only in the final quad),
leftover symbols are an invalid length, non-alphabet bytes are invalid, and
the unused trailing bits of a final partial quad must be zero. -/
def decodeQuads : List Char → Except String (List Nat)
  | [] => .ok []
  | a :: b :: c :: d :: rest =>
    match b64Val a, b64Val b with
    | some va, some vb =>
      if c = '=' then
        if d = '=' ∧ rest = [] then
          if vb % 16 = 0 then .ok [va * 4 + vb / 16]
          else .error "invalid last symbol"
        else .error "invalid padding"
      else
        match b64Val c with
        | some vc =>
          if d = '=' then
            if rest = [] then
              if vc % 4 = 0 then .ok [va * 4 + vb / 16, vb % 16 * 16 + vc / 4]
              else .error "invalid last symbol"
            else .error "invalid padding"
          else
            match b64Val d with
            | some vd =>
              match decodeQuads rest with
              | .ok tail =>
                .ok ((va * 4 + vb / 16) :: (vb % 16 * 16 + vc / 4) ::
                      (vc % 4 * 64 + vd) :: tail)
              | .error e => .error e
            | none => .error "invalid byte"
        | none => .error "invalid byte"
    | _, _ => .error "invalid byte"
  | _ => .error "invalid length"

/-- `general_purpose::STANDARD.decode(&contents)` on a string. -/
def base64_decode (contents : String) : Except String (List Nat) :=
  decodeQuads contents.data

/-! ## Engine surface and the Tauri command handlers -/

/-- Opaque engine-side response values (their content is irrelevant to the
lifecycle claims; a tag keeps distinct responses distinguishable). -/
structure TorrentListResponse where
  raw : Nat
deriving DecidableEq, Repr

/-- Opaque `TorrentDetailsResponse`. -/
structure TorrentDetailsResponse where
  raw : Nat
deriving DecidableEq, Repr

/-- Opaque `TorrentStats`. -/
structure TorrentStats where
  raw : Nat
deriving DecidableEq, Repr

/-- Opaque `ApiAddTorrentResponse`. -/
structure ApiAddTorrentResponse where
  raw : Nat
deriving DecidableEq, Repr

/-- `EmptyJsonResponse`. -/
structure EmptyJsonResponse where
deriving DecidableEq, Repr

/-- Opaque `AddTorrentOptions`. -/
structure AddTorrentOptions where
  raw : Nat
deriving DecidableEq, Repr

/-- `librqbit::AddTorrent`, as built by the two add handlers. -/
inductive AddTorrent where
  | Url (url : String)
  | TorrentFileBytes (bytes : List Nat)
deriving DecidableEq, Repr

/-- The engine (`librqbit::Api`) methods the command handlers delegate to;
their behaviour is external to this crate, so it is a parameter. -/
structure Engine where
  api_torrent_list : Api → TorrentListResponse
  api_add_torrent : Api → AddTorrent → Option AddTorrentOptions →
    Except ApiError ApiAddTorrentResponse
  api_torrent_details : Api → Nat → Except ApiError TorrentDetailsResponse
  api_stats_v1 : Api → Nat → Except ApiError TorrentStats
  api_torrent_action_delete : Api → Nat → Except ApiError EmptyJsonResponse
  api_torrent_action_pause : Api → Nat → Except ApiError EmptyJsonResponse
  api_torrent_action_forget : Api → Nat → Except ApiError EmptyJsonResponse
  api_torrent_action_start : Api → Nat → Except ApiError EmptyJsonResponse

/-- One observable call into the engine, for stating that a handler performs
no engine work (no side effects) on a given path. -/
inductive EngineCall where
  | torrentList (a : Api)
  | addTorrent (a : Api) (t : AddTorrent) (opts : Option AddTorrentOptions)
  | torrentDetails (a : Api) (id : Nat)
  | stats (a : Api) (id : Nat)
  | actionDelete (a : Api) (id : Nat)
  | actionPause (a : Api) (id : Nat)
  | actionForget (a : Api) (id : Nat)
  | actionStart (a : Api) (id : Nat)
deriving DecidableEq, Repr

/-- `torrents_list` (lines 129–132): `Ok(state.api()?.api_torrent_list())`. -/
def torrents_list (eng : Engine) (slot : Slot) :
    Except ApiError TorrentListResponse × List EngineCall :=
  match State.api slot with
  | .error e => (.error e, [])
  | .ok api => (.ok (eng.api_torrent_list api), [.torrentList api])

/-- `torrent_create_from_url` (lines 134–144):
`state.api()?.api_add_torrent(AddTorrent::Url(url.into()), opts).await`. -/
def torrent_create_from_url (eng : Engine) (slot : Slot) (url : String)
    (opts : Option AddTorrentOptions) :
    Except ApiError ApiAddTorrentResponse × List EngineCall :=
  match State.api slot with
  | .error e => (.error e, [])
  | .ok api =>
    (eng.api_add_torrent api (.Url url) opts, [.addTorrent api (.Url url) opts])

/-- `torrent_create_from_base64_file` (lines 146–161): first decode the
base64 `contents` — a decode failure returns the BAD_REQUEST error with the
`"invalid base64"` context — then resolve `state.api()?` and delegate to
`api_add_torrent(AddTorrent::TorrentFileBytes(bytes), opts)`. -/
def torrent_create_from_base64_file (eng : Engine) (slot : Slot)
    (contents : String) (opts : Option AddTorrentOptions) :
    Except ApiError ApiAddTorrentResponse × List EngineCall :=
  match base64_decode contents with
  | .error e => (.error (invalid_base64_error e), [])
  | .ok bytes =>
    match State.api slot with
    | .error e => (.error e, [])
    | .ok api =>
      (eng.api_add_torrent api (.TorrentFileBytes bytes) opts,
       [.addTorrent api (.TorrentFileBytes bytes) opts])

/-- `torrent_details` (lines 163–169). -/
def torrent_details (eng : Engine) (slot : Slot) (id : Nat) :
    Except ApiError TorrentDetailsResponse × List EngineCall :=
  match State.api slot with
  | .error e => (.error e, [])
  | .ok api => (eng.api_torrent_details api id, [.torrentDetails api id])

/-- `torrent_stats` (lines 171–177). -/
def torrent_stats (eng : Engine) (slot : Slot) (id : Nat) :
    Except ApiError TorrentStats × List EngineCall :=
  match State.api slot with
  | .error e => (.error e, [])
  | .ok api => (eng.api_stats_v1 api id, [.stats api id])

/-- `torrent_action_delete` (lines 179–185). -/
def torrent_action_delete (eng : Engine) (slot : Slot) (id : Nat) :
    Except ApiError EmptyJsonResponse × List EngineCall :=
  match State.api slot with
  | .error e => (.error e, [])
  | .ok api => (eng.api_torrent_action_delete api id, [.actionDelete api id])

/-- `torrent_action_pause` (lines 187–193). -/
def torrent_action_pause (eng : Engine) (slot : Slot) (id : Nat) :
    Except ApiError EmptyJsonResponse × List EngineCall :=
  match State.api slot with
  | .error e => (.error e, [])
  | .ok api => (eng.api_torrent_action_pause api id, [.actionPause api id])

/-- `torrent_action_forget` (lines 195–201). -/
def torrent_action_forget (eng : Engine) (slot : Slot) (id : Nat) :
    Except ApiError EmptyJsonResponse × List EngineCall :=
  match State.api slot with
  | .error e => (.error e, [])
  | .ok api => (eng.api_torrent_action_forget api id, [.actionForget api id])

/-- `torrent_action_start` (lines 203–209). -/
def torrent_action_start (eng : Engine) (slot : Slot) (id : Nat) :
    Except ApiError EmptyJsonResponse × List EngineCall :=
  match State.api slot with
  | .error e => (.error e, [])
  | .ok api => (eng.api_torrent_action_start api id, [.actionStart api id])

/-- `config_current` (lines 116–119): delegates to `State::current_config`. -/
def config_current (slot : Slot) : Option RqbitDesktopConfig :=
  State.current_config slot

/-! ## The log-filter reload loop (`init_logging`, lines 216–244) -/

/-- The installed `EnvFilter`, identified by the directive it was parsed
from (the parser itself is external to this crate). -/
structure EnvFilter where
  directive : String
deriving DecidableEq, Repr

/-- One iteration of the `fmt_filter_reloader` loop body (lines 229–239) on
a received directive: parse it; on failure print the error and `continue`
with the installed filter unchanged; on success reload the printed filter.
Returns the filter now in effect and the logged parse error, if any. -/
def reloaderStep (parse : String → Except String EnvFilter)
    (current : EnvFilter) (rust_log : String) : EnvFilter × Option String :=
  match parse rust_log with
  | .error e => (current, some e)
  | .ok f => (f, none)

/-- The `fmt_filter_reloader` loop over a finite queue of received
directives: the filter finally in effect and the parse errors logged along
the way. The loop body never returns an error to anyone. -/
def reloaderRun (parse : String → Except String EnvFilter)
    (current : EnvFilter) : List String → EnvFilter × List String
  | [] => (current, [])
  | m :: ms =>
    let step := reloaderStep parse current m
    let rest := reloaderRun parse step.1 ms
    (rest.1, step.2.toList ++ rest.2)

/-! ## Concrete sample values (for witnesses and counterexamples) -/

/-- A concrete configuration with the HTTP API enabled. -/
def sampleConfig : RqbitDesktopConfig :=
  { default_download_location := "/downloads"
    dht := { disable := false, disable_persistence := false
             persistence_filename := "dht.json" }
    persistence := { disable := false, filename := "session.json" }
    peer_opts := { connect_timeout := 2, read_write_timeout := 10 }
    tcp_listen := { disable := false, min_port := 4240, max_port := 4260 }
    upnp := { disable := false }
    http_api := { disable := false, listen_addr := "127.0.0.1:3030"
                  read_only := false } }

/-- A concrete active-session record. -/
def sampleShared : StateShared :=
  { config := sampleConfig, api := Api.new ⟨7⟩, session := ⟨7⟩ }

/-- A concrete directive parser accepting only `"info"`. -/
def sampleParse : String → Except String EnvFilter :=
  fun s => if s = "info" then .ok ⟨"info"⟩ else .error "bad"

/-- A concrete engine whose methods all succeed with fixed answers. -/
def unitEngine : Engine :=
  { api_torrent_list := fun _ => ⟨0⟩
    api_add_torrent := fun _ _ _ => .ok ⟨0⟩
    api_torrent_details := fun _ _ => .ok ⟨0⟩
    api_stats_v1 := fun _ _ => .ok ⟨0⟩
    api_torrent_action_delete := fun _ _ => .ok ⟨⟩
    api_torrent_action_pause := fun _ _ => .ok ⟨⟩
    api_torrent_action_forget := fun _ _ => .ok ⟨⟩
    api_torrent_action_start := fun _ _ => .ok ⟨⟩ }

/-! ## Claim theorems -/

/-- Claim C1: if `configure(C)` returns successfully, a subsequent
`current_config()` returns exactly `C` — the configuration installed in the
slot is the one passed to `configure`, unchanged. -/
theorem configure_current_config_roundtrip
    (sessionNew : String → SessionOptions → Except String Session)
    (httpTaskResult : Except String Unit) (pre : Slot)
    (config : RqbitDesktopConfig)
    (h : (State.configure sessionNew httpTaskResult pre config).ret = .ok ()) :
    State.current_config
      (State.configure sessionNew httpTaskResult pre config).post = some config := by
  cases hs : sessionNew config.default_download_location (mkSessionOptions config) with
  | error cause => simp [State.configure, hs] at h
  | ok session => simp [State.configure, hs, State.current_config]

/-- Witness for C1 at a concrete input: a successful session construction
installs exactly the configuration that was passed. -/
theorem configure_current_config_roundtrip_witness :
    State.current_config
      (State.configure (fun _ _ => .ok ⟨1⟩) (.ok ()) none sampleConfig).post
      = some sampleConfig :=
  configure_current_config_roundtrip (fun _ _ => .ok ⟨1⟩) (.ok ()) none
    sampleConfig (by decide)

/-- Claim C2: if session construction fails, `configure` returns the
configuration error wrapping the cause, the slot is left empty (a subsequent
`current_config()` returns nothing), and any previously active session had
its stop awaited; no partial record is installed. -/
theorem configure_failure_leaves_slot_empty
    (sessionNew : String → SessionOptions → Except String Session)
    (httpTaskResult : Except String Unit) (pre : Slot)
    (config : RqbitDesktopConfig) (cause : String)
    (h : sessionNew config.default_download_location (mkSessionOptions config)
      = .error cause) :
    (State.configure sessionNew httpTaskResult pre config).ret
      = .error (configure_error cause) ∧
    (State.configure sessionNew httpTaskResult pre config).post = none ∧
    State.current_config
      (State.configure sessionNew httpTaskResult pre config).post = none ∧
    ∀ rec, pre = some rec →
      Event.awaitStop rec.session
        ∈ (State.configure sessionNew httpTaskResult pre config).trace := by
  refine ⟨?_, ?_, ?_, ?_⟩
  · simp [State.configure, h]
  · simp [State.configure, h]
  · simp [State.configure, h, State.current_config]
  · intro rec hpre
    subst hpre
    simp [State.configure, h]

/-- Witness for C2 at a concrete input: constructing from a failing
`Session::new_with_opts` over a populated slot returns the error, empties
the slot, and the old session's stop was awaited. -/
theorem configure_failure_leaves_slot_empty_witness :
    (State.configure (fun _ _ => .error "boom") (.ok ()) (some sampleShared)
        sampleConfig).ret = .error (configure_error "boom") ∧
    (State.configure (fun _ _ => .error "boom") (.ok ()) (some sampleShared)
        sampleConfig).post = none ∧
    State.current_config
      (State.configure (fun _ _ => .error "boom") (.ok ()) (some sampleShared)
        sampleConfig).post = none ∧
    (∀ rec, (some sampleShared : Slot) = some rec →
      Event.awaitStop rec.session
        ∈ (State.configure (fun _ _ => .error "boom") (.ok ())
            (some sampleShared) sampleConfig).trace) :=
  configure_failure_leaves_slot_empty (fun _ _ => .error "boom") (.ok ())
    (some sampleShared) sampleConfig "boom" (by decide)

/-- Claim C3: when the slot is populated, `configure` removes the old record
under the write lock as its very first step and only then awaits the old
session's stop, so during the shutdown-wait window the slot holds nothing:
readers observe the unconfigured state (`current_config()` empty,
`api()` failing with `ERR_NOT_CONFIGURED`), never a mid-shutdown session. -/
theorem configure_removes_record_before_stop
    (sessionNew : String → SessionOptions → Except String Session)
    (httpTaskResult : Except String Unit) (rec : StateShared)
    (config : RqbitDesktopConfig) :
    (State.configure sessionNew httpTaskResult (some rec) config).trace.take 2
      = [Event.lockTake (some rec), Event.awaitStop rec.session] ∧
    slotAfter (some rec)
      ((State.configure sessionNew httpTaskResult (some rec) config).trace.take 1)
      = none ∧
    State.current_config
      (slotAfter (some rec)
        ((State.configure sessionNew httpTaskResult (some rec) config).trace.take 1))
      = none ∧
    State.api
      (slotAfter (some rec)
        ((State.configure sessionNew httpTaskResult (some rec) config).trace.take 1))
      = .error ERR_NOT_CONFIGURED := by
  cases hs : sessionNew config.default_download_location (mkSessionOptions config) with
  | error cause =>
    refine ⟨?_, ?_, ?_, ?_⟩ <;>
      simp [State.configure, hs, slotAfter, applyEvent, State.current_config, State.api]
  | ok session =>
    refine ⟨?_, ?_, ?_, ?_⟩ <;>
      simp [State.configure, hs, slotAfter, applyEvent, State.current_config, State.api]

/-- Claim C4: in every `configure` execution, the write lock is held only
during the take-and-clear and the final install — both pure slot swaps —
and at no event that holds the write lock does a suspension (await / I/O)
occur; conversely every suspension (the old session's stop, the new
session's construction) runs with the lock released. -/
theorem configure_no_suspension_under_write_lock
    (sessionNew : String → SessionOptions → Except String Session)
    (httpTaskResult : Except String Unit) (pre : Slot)
    (config : RqbitDesktopConfig) :
    ∀ e ∈ (State.configure sessionNew httpTaskResult pre config).trace,
      (e.holdsWriteLock = true →
        e.isSuspension = false ∧ e.isSlotSwap = true) ∧
      (e.isSuspension = true → e.holdsWriteLock = false) := by
  intro e _
  cases e <;>
    simp [Event.holdsWriteLock, Event.isSuspension, Event.isSlotSwap]

/-- Witness for C4 at a concrete input: the take event of a concrete
`configure` trace holds the lock, is no suspension, and is a slot swap. -/
theorem configure_no_suspension_under_write_lock_witness :
    ((Event.lockTake (some sampleShared)).holdsWriteLock = true →
      (Event.lockTake (some sampleShared)).isSuspension = false ∧
      (Event.lockTake (some sampleShared)).isSlotSwap = true) ∧
    ((Event.lockTake (some sampleShared)).isSuspension = true →
      (Event.lockTake (some sampleShared)).holdsWriteLock = false) :=
  configure_no_suspension_under_write_lock (fun _ _ => .ok ⟨1⟩) (.ok ())
    (some sampleShared) sampleConfig (Event.lockTake (some sampleShared))
    (by decide)

/-- Claim C8: when the take-and-clear finds the slot already empty,
`configure` performs no stop wait at all — no `awaitStop` event occurs in
its trace — and proceeds directly from the take to the construction of the
new session. -/
theorem configure_empty_slot_skips_stop_wait
    (sessionNew : String → SessionOptions → Except String Session)
    (httpTaskResult : Except String Unit) (config : RqbitDesktopConfig) :
    (∀ s, Event.awaitStop s
      ∉ (State.configure sessionNew httpTaskResult none config).trace) ∧
    (State.configure sessionNew httpTaskResult none config).trace.take 2
      = [Event.lockTake none,
         Event.awaitSessionNew config.default_download_location
           (mkSessionOptions config)] := by
  cases hs : sessionNew config.default_download_location (mkSessionOptions config) with
  | error cause =>
    refine ⟨?_, ?_⟩ <;> simp [State.configure, hs]
  | ok session =>
    refine ⟨?_, ?_⟩
    · intro s
      by_cases hd : config.http_api.disable <;>
        simp [State.configure, hs, hd]
    · by_cases hd : config.http_api.disable <;>
        simp [State.configure, hs, hd]

/-- Counterexample to claim C5 as stated: invoking
`torrent_create_from_base64_file` while no session is configured, with
contents that are not valid base64, returns the BAD_REQUEST invalid-base64
error — not the distinguished `ERR_NOT_CONFIGURED`. -/
theorem unconfigured_base64_invocation_cex :
    torrent_create_from_base64_file unitEngine none "!" none
      = (.error (invalid_base64_error "invalid length"), []) ∧
    invalid_base64_error "invalid length" ≠ ERR_NOT_CONFIGURED := by
  decide

/-- Claim C5 (amended): every command operation that needs a session,
invoked while no session is configured, returns `ERR_NOT_CONFIGURED` with
no engine call — except `torrent_create_from_base64_file` on contents that
fail base64 decoding, which returns the invalid-base64 BAD_REQUEST error,
likewise with no engine call (no side effects either way). -/
theorem unconfigured_commands_return_not_configured (eng : Engine) :
    torrents_list eng none = (.error ERR_NOT_CONFIGURED, []) ∧
    (∀ url opts, torrent_create_from_url eng none url opts
      = (.error ERR_NOT_CONFIGURED, [])) ∧
    (∀ id, torrent_details eng none id = (.error ERR_NOT_CONFIGURED, [])) ∧
    (∀ id, torrent_stats eng none id = (.error ERR_NOT_CONFIGURED, [])) ∧
    (∀ id, torrent_action_delete eng none id = (.error ERR_NOT_CONFIGURED, [])) ∧
    (∀ id, torrent_action_pause eng none id = (.error ERR_NOT_CONFIGURED, [])) ∧
    (∀ id, torrent_action_forget eng none id = (.error ERR_NOT_CONFIGURED, [])) ∧
    (∀ id, torrent_action_start eng none id = (.error ERR_NOT_CONFIGURED, [])) ∧
    (∀ contents opts,
      torrent_create_from_base64_file eng none contents opts
        = match base64_decode contents with
          | .ok _ => (.error ERR_NOT_CONFIGURED, [])
          | .error e => (.error (invalid_base64_error e), [])) := by
  refine ⟨rfl, fun _ _ => rfl, fun _ => rfl, fun _ => rfl, fun _ => rfl,
    fun _ => rfl, fun _ => rfl, fun _ => rfl, ?_⟩
  intro contents opts
  cases hb : base64_decode contents <;>
    simp [torrent_create_from_base64_file, hb, State.api]

/-- Counterexample to claim C6 as stated: `torrent_create_from_base64_file`
does not resolve the session handle first — called in the unconfigured
state (where resolution fails), it still reports the base64 decode failure
rather than the not-configured error, because the decode runs before
`state.api()`. -/
theorem base64_decode_precedes_resolution_cex :
    torrent_create_from_base64_file unitEngine none "====" none
      = (.error (invalid_base64_error "invalid byte"), []) ∧
    invalid_base64_error "invalid byte" ≠ ERR_NOT_CONFIGURED := by
  decide

/-- Claim C6 (amended): every command operation other than
`torrent_create_from_base64_file` first resolves the session handle and, on
resolution failure, returns that error (always `ERR_NOT_CONFIGURED`)
immediately with no engine call; `torrent_create_from_base64_file` decodes
its contents first — on decode failure it returns the invalid-base64 error
with no engine call whatever the slot holds — and only for decodable
contents resolves the handle, returning `ERR_NOT_CONFIGURED` on failure
with no engine call. -/
theorem commands_resolve_api_first_amended (eng : Engine) (slot : Slot)
    (e : ApiError) (h : State.api slot = .error e) :
    e = ERR_NOT_CONFIGURED ∧
    torrents_list eng slot = (.error e, []) ∧
    (∀ url opts, torrent_create_from_url eng slot url opts = (.error e, [])) ∧
    (∀ id, torrent_details eng slot id = (.error e, [])) ∧
    (∀ id, torrent_stats eng slot id = (.error e, [])) ∧
    (∀ id, torrent_action_delete eng slot id = (.error e, [])) ∧
    (∀ id, torrent_action_pause eng slot id = (.error e, [])) ∧
    (∀ id, torrent_action_forget eng slot id = (.error e, [])) ∧
    (∀ id, torrent_action_start eng slot id = (.error e, [])) ∧
    (∀ contents opts bytes, base64_decode contents = .ok bytes →
      torrent_create_from_base64_file eng slot contents opts = (.error e, [])) ∧
    (∀ slot2 contents opts cause, base64_decode contents = .error cause →
      torrent_create_from_base64_file eng slot2 contents opts
        = (.error (invalid_base64_error cause), [])) := by
  have hslot : slot = none := by
    cases slot with
    | none => rfl
    | some s => simp [State.api] at h
  subst hslot
  have he : e = ERR_NOT_CONFIGURED := by
    simp [State.api] at h
    exact h.symm
  subst he
  refine ⟨rfl, rfl, fun _ _ => rfl, fun _ => rfl, fun _ => rfl, fun _ => rfl,
    fun _ => rfl, fun _ => rfl, fun _ => rfl, ?_, ?_⟩
  · intro contents opts bytes hb
    simp [torrent_create_from_base64_file, hb, State.api]
  · intro slot2 contents opts cause hb
    simp [torrent_create_from_base64_file, hb]

/-- Witness for the amended C6 at a concrete input: listing while
unconfigured resolves the handle, fails, and returns `ERR_NOT_CONFIGURED`
with no engine call. -/
theorem commands_resolve_api_first_amended_witness :
    torrents_list unitEngine none = (.error ERR_NOT_CONFIGURED, []) :=
  (commands_resolve_api_first_amended unitEngine none ERR_NOT_CONFIGURED
    (by decide)).2.1

/-- Claim C7: for every input string that is not valid base64,
`torrent_create_from_base64_file` returns the BAD_REQUEST invalid-encoding
error carrying the decode cause, makes no engine call (the bytes never
reach `api_add_torrent`), and — being a total function — does not panic;
the error is a client error, not the engine-level not-configured one. -/
theorem base64_invalid_returns_bad_request (eng : Engine) (slot : Slot)
    (contents : String) (opts : Option AddTorrentOptions) (cause : String)
    (h : base64_decode contents = .error cause) :
    torrent_create_from_base64_file eng slot contents opts
      = (.error (invalid_base64_error cause), []) ∧
    (invalid_base64_error cause).status = 400 ∧
    invalid_base64_error cause ≠ ERR_NOT_CONFIGURED := by
  refine ⟨?_, rfl, ?_⟩
  · simp [torrent_create_from_base64_file, h]
  · intro hc
    have : (400 : Nat) = 424 := congrArg ApiError.status hc
    simp at this

/-- Witness for C7 at a concrete input: a non-base64 string produces the
invalid-base64 BAD_REQUEST error and no engine call, in a configured
state. -/
theorem base64_invalid_returns_bad_request_witness :
    torrent_create_from_base64_file unitEngine (some sampleShared) "%%%%" none
      = (.error (invalid_base64_error "invalid byte"), []) ∧
    (invalid_base64_error "invalid byte").status = 400 ∧
    invalid_base64_error "invalid byte" ≠ ERR_NOT_CONFIGURED :=
  base64_invalid_returns_bad_request unitEngine (some sampleShared) "%%%%"
    none "invalid byte" (by decide)

/-- Claim C9: when a received log directive fails to parse, the reload loop
keeps the previously installed filter in effect, records (prints) the parse
failure, and continues with the remaining queue — the failure is surfaced
to no caller; a step that changes the installed filter only ever does so
with a successfully parsed directive. -/
theorem reloader_keeps_filter_on_parse_failure
    (parse : String → Except String EnvFilter) (current : EnvFilter)
    (msg : String) (e : String) (h : parse msg = .error e) :
    reloaderStep parse current msg = (current, some e) ∧
    (∀ ms, reloaderRun parse current (msg :: ms)
      = ((reloaderRun parse current ms).1,
         e :: (reloaderRun parse current ms).2)) ∧
    (∀ m, (reloaderStep parse current m).1 ≠ current →
      parse m = .ok (reloaderStep parse current m).1) := by
  refine ⟨?_, ?_, ?_⟩
  · simp [reloaderStep, h]
  · intro ms
    simp [reloaderRun, reloaderStep, h]
  · intro m hm
    cases hp : parse m with
    | error f => simp [reloaderStep, hp] at hm
    | ok f => simp [reloaderStep, hp]

/-- Witness for C9 at a concrete input: a parser that rejects everything
but `"info"` leaves the filter unchanged on a bogus directive, logs the
failure, and the loop goes on. -/
theorem reloader_keeps_filter_on_parse_failure_witness :
    reloaderStep sampleParse ⟨"info"⟩ "bogus" = (⟨"info"⟩, some "bad") ∧
    (∀ ms, reloaderRun sampleParse ⟨"info"⟩ ("bogus" :: ms)
      = ((reloaderRun sampleParse ⟨"info"⟩ ms).1,
         "bad" :: (reloaderRun sampleParse ⟨"info"⟩ ms).2)) ∧
    (∀ m, (reloaderStep sampleParse ⟨"info"⟩ m).1 ≠ ⟨"info"⟩ →
      sampleParse m = .ok (reloaderStep sampleParse ⟨"info"⟩ m).1) :=
  reloader_keeps_filter_on_parse_failure sampleParse ⟨"info"⟩ "bogus" "bad"
    (by decide)

/-- Claim C10: `configure`'s outcome is independent of the spawned HTTP API
task's result (the code never inspects it), and when session construction
succeeds the new record is installed and `Ok` returned even if the spawned
task fails; with the HTTP API enabled, the spawn happens between session
construction and the install, and it is not an await point. -/
theorem configure_independent_of_http_task
    (sessionNew : String → SessionOptions → Except String Session)
    (pre : Slot) (config : RqbitDesktopConfig) :
    (∀ r1 r2, State.configure sessionNew r1 pre config
      = State.configure sessionNew r2 pre config) ∧
    (∀ session,
      sessionNew config.default_download_location (mkSessionOptions config)
        = .ok session →
      ∀ httpCrash,
        (State.configure sessionNew (.error httpCrash) pre config).ret
          = .ok () ∧
        (State.configure sessionNew (.error httpCrash) pre config).post
          = some { config := config, api := Api.new session
                   session := session } ∧
        (config.http_api.disable = false →
          List.IsInfix
            [Event.awaitSessionNew config.default_download_location
               (mkSessionOptions config),
             Event.spawnHttpApi config.http_api.listen_addr
               config.http_api.read_only,
             Event.lockInstall
               { config := config, api := Api.new session, session := session }]
            (State.configure sessionNew (.error httpCrash) pre config).trace ∧
          (Event.spawnHttpApi config.http_api.listen_addr
            config.http_api.read_only).isSuspension = false)) := by
  refine ⟨fun r1 r2 => rfl, ?_⟩
  intro session hs httpCrash
  refine ⟨?_, ?_, ?_⟩
  · simp [State.configure, hs]
  · simp [State.configure, hs]
  · intro hd
    refine ⟨?_, rfl⟩
    cases pre with
    | none =>
      exact ⟨[Event.lockTake none], [], by simp [State.configure, hs, hd]⟩
    | some rec =>
      exact ⟨[Event.lockTake (some rec), Event.awaitStop rec.session], [],
        by simp [State.configure, hs, hd]⟩

/-- Witness for C10 at a concrete input: with a crashing HTTP API task,
a successful construction still installs the record, returns `Ok`, and the
spawn sits between construction and install. -/
theorem configure_independent_of_http_task_witness :
    (State.configure (fun _ _ => .ok ⟨1⟩) (.error "bind failed") none
        sampleConfig).ret = .ok () ∧
    (State.configure (fun _ _ => .ok ⟨1⟩) (.error "bind failed") none
        sampleConfig).post
      = some { config := sampleConfig, api := Api.new ⟨1⟩, session := ⟨1⟩ } ∧
    (sampleConfig.http_api.disable = false →
      List.IsInfix
        [Event.awaitSessionNew sampleConfig.default_download_location
           (mkSessionOptions sampleConfig),
         Event.spawnHttpApi sampleConfig.http_api.listen_addr
           sampleConfig.http_api.read_only,
         Event.lockInstall
           { config := sampleConfig, api := Api.new ⟨1⟩, session := ⟨1⟩ }]
        (State.configure (fun _ _ => .ok ⟨1⟩) (.error "bind failed") none
          sampleConfig).trace ∧
      (Event.spawnHttpApi sampleConfig.http_api.listen_addr
        sampleConfig.http_api.read_only).isSuspension = false) :=
  (configure_independent_of_http_task (fun _ _ => .ok ⟨1⟩) none
    sampleConfig).2 ⟨1⟩ (by decide) "bind failed"
